import Mathlib

/-!
Verification development for the book-expert/logger repository.

The Go sources are shallowly embedded: Go strings become `List Char`
(`len`, slicing and `strings.Contains` are byte-based in Go; all inputs
considered here are ASCII, where byte and character indexing coincide),
`[]any` argument lists become `List GoValue`, nil-able pointers become
`Option`, and the side effects of a call (lines printed to stdout, the
log file, or stderr) are returned explicitly as a list of emissions.
The outcome of a call to Go's `fmt.Sprintf` (which the library guards
against panics) is passed in explicitly as a `FmtResult`, so theorems
can quantify over both the normal and the panicking outcome.
-/

/-- Go strings, as lists of characters. -/
abbrev GoString := List Char

/-- A Go `any` value as passed to the variadic logging methods.  Only the
value kinds exercised in this development (strings and ints) are modelled. -/
inductive GoValue where
  | str (s : GoString)
  | int (n : Int)
deriving DecidableEq, Repr

/-- The Go dynamic type name of a value, as `fmt` prints it in the
`%!(EXTRA type=value)` diagnostic. -/
def goTypeName : GoValue → GoString
  | GoValue.str _ => ("string".toList)
  | GoValue.int _ => ("int".toList)

/-- Go `%v` rendering of a single value: a string prints as-is, an int in
decimal. -/
def goShowValue : GoValue → GoString
  | GoValue.str s => s
  | GoValue.int n => ((toString n).toList)

/-- Go `%v` rendering of an `[]any` slice: bracketed, space-separated. -/
def goShowArgs (args : List GoValue) : GoString :=
  '[' :: (List.intercalate (" ".toList) (args.map goShowValue)) ++ ("]".toList)

/-- Go `%q` rendering of the strings at issue: surrounding double quotes
(the strings used here contain no characters `%q` would escape). -/
def goQuote (s : GoString) : GoString :=
  '"' :: s ++ ("\"".toList)

/-- Go `strings.Contains s sub`: `sub` occurs as a contiguous substring of
`s`. -/
def goContains (s sub : GoString) : Bool := decide (sub <:+: s)

/-- A Go `error` value, identified by its rendered message. -/
structure GoErr where
  msg : GoString
deriving DecidableEq, Repr

/- ### Path and filename validation (src/logger.go lines 150-189) -/

/-- The category-tagged validation errors declared at src/logger.go lines
31-41 (`ErrPathCannotBeEmpty`, `ErrPathContainsInvalidChars`,
`ErrFilenameCannotBeEmpty`, `ErrFilenameContainsInvalid`). -/
inductive LoggerErr where
  | pathCannotBeEmpty
  | pathContainsInvalidChars
  | filenameCannotBeEmpty
  | filenameContainsInvalid
deriving DecidableEq, Repr

/-- src/logger.go lines 175-178: the path contains `".."` or `"~"`. -/
def containsInvalidPathChars (path : GoString) : Bool :=
  goContains path ("..".toList) || goContains path ("~".toList)

/-- src/logger.go lines 180-189: the Go loop over `{"/", "\\", "..", "~"}`
with early `return true`, equivalently the disjunction of the four
containment tests in that order. -/
def containsInvalidFilenameChars (filename : GoString) : Bool :=
  goContains filename ("/".toList) || goContains filename ("\\".toList) ||
    goContains filename ("..".toList) || goContains filename ("~".toList)

/-- src/logger.go lines 150-160: `ValidatePath`.  `none` means the path
passed validation. -/
def ValidatePath (path : GoString) : Option LoggerErr :=
  if path = [] then some LoggerErr.pathCannotBeEmpty
  else if containsInvalidPathChars path then some LoggerErr.pathContainsInvalidChars
  else none

/-- src/logger.go lines 163-173: `ValidateFilename`. -/
def ValidateFilename (filename : GoString) : Option LoggerErr :=
  if filename = [] then some LoggerErr.filenameCannotBeEmpty
  else if containsInvalidFilenameChars filename then some LoggerErr.filenameContainsInvalid
  else none

/- ### The Logger instance and its write path (src/logger.go lines 43-367) -/

/-- A destination a piece of text can be written to.  `fileSink h` is a
`log.Logger` bound to the open file with handle `h`. -/
inductive Sink where
  | stdout
  | fileSink (handle : Nat)
  | stderr
deriving DecidableEq, Repr

/-- One line of output produced by an operation: the sink it went to and
the text written (the `log.Logger` timestamp prefix and trailing newline
added by `Println` are abstracted away; `Fprintf` text is modelled in
full). -/
structure Emission where
  sink : Sink
  text : GoString
deriving DecidableEq, Repr

/-- The `Logger` struct of src/logger.go lines 46-51.  `logFile` is the
owned `*os.File` (a handle number, `none` once released); `std` and
`file` are the two `*log.Logger` output sinks (`none` models a nil
pointer).  The mutex only serializes calls and carries no data, so it is
not part of the state. -/
structure GoLogger where
  logFile : Option Nat
  std : Option Sink
  file : Option Sink
deriving DecidableEq, Repr

/-- src/logger.go lines 139-146: `createLoggerInstance` with an open file
handle `f`. -/
def createLoggerInstance (f : Nat) : GoLogger :=
  { logFile := some f, std := some Sink.stdout, file := some (Sink.fileSink f) }

/-- Go `fmt.Errorf("close log file: %w", err)`.  When the wrapped operand
is nil, `%w` renders as `%!w(<nil>)` and the call still returns a
non-nil error. -/
def wrapCloseErr : Option GoErr → GoErr
  | none => ⟨("close log file: %!w(<nil>)".toList)⟩
  | some e => ⟨("close log file: ".toList) ++ e.msg⟩

/-- src/logger.go lines 192-204: `Close`.  `fileCloseResult` is the outcome
of the underlying `l.logFile.Close()` (`none` = success).  Note the Go
code returns `fmt.Errorf("close log file: %w", err)` unconditionally in
the non-nil-handle branch, even when `err` is nil. -/
def GoLogger.Close (l : GoLogger) (fileCloseResult : Option GoErr) : GoLogger × Option GoErr :=
  if l.logFile ≠ none then ({ l with logFile := none }, some (wrapCloseErr fileCloseResult))
  else (l, none)

/-- src/unnamed/part_000 lines 234-248: the sibling version of `Close`,
which wraps and returns the close error only when it is non-nil. -/
def GoLogger.ClosePart000 (l : GoLogger) (fileCloseResult : Option GoErr) : GoLogger × Option GoErr :=
  if l.logFile ≠ none then
    ({ l with logFile := none },
      match fileCloseResult with
      | some e => some (wrapCloseErr (some e))
      | none => none)
  else (l, none)

/-- src/logger.go lines 261-267: `validateFormat` substitutes the fixed
placeholder for an empty template. -/
def validateFormat (format : GoString) : GoString :=
  if format = [] then ("(empty message)".toList) else format

/-- The outcome of the call `fmt.Sprintf(format, args...)`: either the
rendered string or a panic carrying the given panic value text. -/
inductive FmtResult where
  | ok (s : GoString)
  | panicked (r : GoString)
deriving DecidableEq, Repr

/-- The stderr report `"[LOGGER ERROR] Format panic: %v, format=%q, args=%v\n"`
(src/logger.go lines 26-28) instantiated at a recovered panic value `r`. -/
def loggerErrorText (r format : GoString) (args : List GoValue) : GoString :=
  ("[LOGGER ERROR] Format panic: ".toList) ++ r ++ (", format=".toList) ++
    goQuote format ++ (", args=".toList) ++ goShowArgs args ++ ("\n".toList)

/-- src/logger.go lines 327-367: `safeFormat`.  With no arguments the
template is returned as-is (Sprintf is not called).  Otherwise, on a
normal Sprintf outcome its result is returned.  On a Sprintf panic the
deferred `recover` fires and reports to stderr, after which the function
returns the zero value `""`: the in-body `if r := recover(); r != nil`
block at lines 352-364 runs outside any deferred call, where `recover`
always returns nil, so its fallback `return` is dead code, and the
return slot is unnamed, so the deferred handler cannot replace it. -/
def safeFormat (format : GoString) (args : List GoValue) (render : FmtResult) : GoString × List Emission :=
  if args = [] then (format, [])
  else
    match render with
    | FmtResult.ok s => (s, [])
    | FmtResult.panicked r => ([], [⟨Sink.stderr, loggerErrorText r format args⟩])

/-- src/unnamed/part_000 lines 357-373 (and 714-730): the sibling version
of `safeFormat` with a named result, whose deferred recover assigns
`result = fmt.Sprintf("(format error: %s) args=%v", format, args)`. -/
def safeFormatPart000 (format : GoString) (args : List GoValue) (render : FmtResult) : GoString × List Emission :=
  if args = [] then (format, [])
  else
    match render with
    | FmtResult.ok s => (s, [])
    | FmtResult.panicked r =>
        (("(format error: ".toList) ++ format ++ (") args=".toList) ++ goShowArgs args,
          [⟨Sink.stderr, loggerErrorText r format args⟩])

/-- src/logger.go line 241: `maxLogMessageLength`. -/
def maxLogMessageLength : Nat := 4096

/-- The truncation step inside `prepareMessage` (src/logger.go lines
271-273): `formattedMsg[:maxLogMessageLength-20] + "... [TRUNCATED]"`
when the rendered message exceeds the maximum. -/
def truncateIfLong (s : GoString) : GoString :=
  if maxLogMessageLength < s.length
  then s.take (maxLogMessageLength - 20) ++ ("... [TRUNCATED]".toList)
  else s

/-- src/logger.go lines 294-325: `formatLogMessage` builds
`"[" + level + "] " + formattedMsg"`.  The `strings.Builder.WriteString`
error checks are dead code (that method always returns a nil error), so
the function is plain concatenation. -/
def formatLogMessage (level formattedMsg : GoString) : GoString :=
  '[' :: level ++ ("] ".toList) ++ formattedMsg

/-- src/logger.go lines 269-276: `prepareMessage` renders via `safeFormat`,
truncates, and prefixes the level tag; the second component carries the
stderr emissions `safeFormat` may have produced. -/
def prepareMessage (level format : GoString) (args : List GoValue) (render : FmtResult) : GoString × List Emission :=
  (formatLogMessage level (truncateIfLong (safeFormat format args render).1),
    (safeFormat format args render).2)

/-- `Println` through an optional `*log.Logger`: a nil sink is modelled as
writing nothing (the library never holds a nil sink in a reachable
state). -/
def sinkEmissions : Option Sink → GoString → List Emission
  | none, _ => []
  | some s, msg => [⟨s, msg⟩]

/-- src/logger.go lines 243-259 with 278-292: `write`.  The format is
validated first; when the file handle has been released the message goes
through `writeToStderrFallback` (lines 283-292), which formats
`"[%s] (logger closed) %s\n"` to stderr; otherwise `prepareMessage` and
`outputMessage` (lines 278-281) write the line to the stdout sink and
the file sink.  `render` is the outcome `fmt.Sprintf` has on the
validated format and the arguments. -/
def GoLogger.write (l : GoLogger) (level format : GoString) (args : List GoValue)
    (render : FmtResult) : GoLogger × List Emission :=
  if l.logFile = none then
    (l, (safeFormat (validateFormat format) args render).2 ++
      [⟨Sink.stderr, '[' :: level ++ ("] (logger closed) ".toList) ++
        (safeFormat (validateFormat format) args render).1 ++ ("\n".toList)⟩])
  else
    if (prepareMessage level (validateFormat format) args render).1 = [] then
      (l, (prepareMessage level (validateFormat format) args render).2)
    else
      (l, (prepareMessage level (validateFormat format) args render).2 ++
        sinkEmissions l.std (prepareMessage level (validateFormat format) args render).1 ++
        sinkEmissions l.file (prepareMessage level (validateFormat format) args render).1)

/-- src/logger.go lines 206-209: `Info`. -/
def GoLogger.Info (l : GoLogger) (format : GoString) (args : List GoValue)
    (render : FmtResult) : GoLogger × List Emission :=
  l.write ("INFO".toList) format args render

/-- src/logger.go lines 211-214: `Warn`. -/
def GoLogger.Warn (l : GoLogger) (format : GoString) (args : List GoValue)
    (render : FmtResult) : GoLogger × List Emission :=
  l.write ("WARN".toList) format args render

/-- src/logger.go lines 216-219: `Error`. -/
def GoLogger.Error (l : GoLogger) (format : GoString) (args : List GoValue)
    (render : FmtResult) : GoLogger × List Emission :=
  l.write ("ERROR".toList) format args render

/-- src/logger.go lines 221-224: `Success`. -/
def GoLogger.Success (l : GoLogger) (format : GoString) (args : List GoValue)
    (render : FmtResult) : GoLogger × List Emission :=
  l.write ("SUCCESS".toList) format args render

/-- src/logger.go lines 226-229: `Fatal` (logs, does not exit). -/
def GoLogger.Fatal (l : GoLogger) (format : GoString) (args : List GoValue)
    (render : FmtResult) : GoLogger × List Emission :=
  l.write ("FATAL".toList) format args render

/-- src/logger.go lines 231-234: `Panic` (logs, does not unwind). -/
def GoLogger.Panic (l : GoLogger) (format : GoString) (args : List GoValue)
    (render : FmtResult) : GoLogger × List Emission :=
  l.write ("PANIC".toList) format args render

/-- src/logger.go lines 236-239: `System`. -/
def GoLogger.System (l : GoLogger) (format : GoString) (args : List GoValue)
    (render : FmtResult) : GoLogger × List Emission :=
  l.write ("SYSTEM".toList) format args render

/- ### Reachable Logger states -/

/-- The states a `Logger` instance can be in: freshly constructed
(src/logger.go line 75 returns `createLoggerInstance f`), or the result
of any sequence of `Close` and `write` (hence severity-method) calls. -/
inductive Reachable : GoLogger → Prop
  | init (f : Nat) : Reachable (createLoggerInstance f)
  | close (l : GoLogger) (r : Option GoErr) :
      Reachable l → Reachable (l.Close r).1
  | write (l : GoLogger) (level format : GoString) (args : List GoValue) (render : FmtResult) :
      Reachable l → Reachable (l.write level format args render).1

/-- The invariant asserted by the spec (data-model section): the file
handle and the file-bound sink are present or absent together. -/
def handleSinkTogether (l : GoLogger) : Prop :=
  l.logFile.isSome = l.file.isSome

/- ### Go fmt.Sprintf on a verb-free format -/

/-- The diagnostic Go `fmt` appends when arguments remain after the format
has been consumed: `"%!(EXTRA type=value, ...)"` (documented behaviour
of package fmt). -/
def extraDiagnostic (args : List GoValue) : GoString :=
  ("%!(EXTRA ".toList) ++
    List.intercalate (", ".toList) (args.map (fun a => goTypeName a ++ '=' :: goShowValue a)) ++
    (")".toList)

/-- Go `fmt.Sprintf` restricted to a format string containing no verb (in
particular no `%` at all, as is the case for `"(empty message)"`): the
format is echoed, and surplus arguments produce the documented
`%!(EXTRA ...)` diagnostic. -/
def goSprintfVerbFree (format : GoString) (args : List GoValue) : GoString :=
  if args = [] then format else format ++ extraDiagnostic args

/- ### The CLI front-end (src/cmd/logger/main.go) -/

/-- The severity method of the library facade a CLI dispatch ends up
calling. -/
inductive Severity where
  | info
  | warn
  | error
  | success
  | fatal
  | panicLevel
  | system
deriving DecidableEq, Repr

/-- src/cmd/logger/main.go lines 455-465: `getLevelHandlers`.  The Go map
has exactly the seven lowercase level names as keys; map lookup is
case-sensitive, modelled by the exact-equality chain below. -/
def getLevelHandlers (level : GoString) : Option Severity :=
  if level = ("info".toList) then some Severity.info
  else if level = ("warn".toList) then some Severity.warn
  else if level = ("error".toList) then some Severity.error
  else if level = ("success".toList) then some Severity.success
  else if level = ("fatal".toList) then some Severity.fatal
  else if level = ("panic".toList) then some Severity.panicLevel
  else if level = ("system".toList) then some Severity.system
  else none

/-- src/cmd/logger/main.go lines 467-478: `logMessage` looks the level up
and either dispatches (returning which facade method gets which message)
or returns the `"unknown log level: '%s'"` error built from
`ErrUnknownLogLevel` via `fmt.Errorf("%w: '%s", ...)`. -/
def logMessage (level message : GoString) : Except GoErr (Severity × GoString) :=
  match getLevelHandlers level with
  | none =>
      Except.error ⟨("unknown log level: '".toList) ++ level ++ ("'".toList)⟩
  | some s => Except.ok (s, message)

/-- src/cmd/logger/main.go lines 529-539: `getDaemonLevelHandlers`, keyed
by the seven uppercase level names. -/
def getDaemonLevelHandlers (level : GoString) : Option Severity :=
  if level = ("INFO".toList) then some Severity.info
  else if level = ("WARN".toList) then some Severity.warn
  else if level = ("ERROR".toList) then some Severity.error
  else if level = ("SUCCESS".toList) then some Severity.success
  else if level = ("FATAL".toList) then some Severity.fatal
  else if level = ("PANIC".toList) then some Severity.panicLevel
  else if level = ("SYSTEM".toList) then some Severity.system
  else none

/-- src/cmd/logger/main.go lines 541-550: `logMessageInDaemon` dispatches
to the handler for the level token, defaulting to the informational
handler when the token is not a key of the daemon handler map. -/
def logMessageInDaemon (level message : GoString) : Severity × GoString :=
  ((getDaemonLevelHandlers level).getD Severity.info, message)

/-- Go `strings.Cut(line, ":")`: the part before the first colon, the part
after it, and whether a colon was found. -/
def goCutColon : GoString → GoString × GoString × Bool
  | [] => ([], [], false)
  | c :: rest =>
      if c = ':' then ([], rest, true)
      else (c :: (goCutColon rest).1, (goCutColon rest).2.1, (goCutColon rest).2.2)

/-- src/cmd/logger/main.go lines 552-559: `parseLogLine` splits on the
first colon, defaulting to the `"INFO"` token with the whole line as
message when no colon is present. -/
def parseLogLine (line : GoString) : GoString × GoString :=
  if (goCutColon line).2.2 = false then (("INFO".toList), line)
  else ((goCutColon line).1, (goCutColon line).2.1)

/-- src/cmd/logger/main.go lines 520-527: `processLogLine` skips empty
lines (returning before any parsing or dispatch) and otherwise parses
and dispatches; the result records which severity method is invoked
with which message, or `none` when nothing is dispatched. -/
def processLogLine (line : GoString) : Option (Severity × GoString) :=
  if line = [] then none
  else some (logMessageInDaemon (parseLogLine line).1 (parseLogLine line).2)

/- ### Helper lemmas -/

/-- `write` never changes the instance: no statement of the Go `write` path
assigns to a field of `l`. -/
theorem write_fst (l : GoLogger) (level format : GoString) (args : List GoValue)
    (render : FmtResult) : (l.write level format args render).1 = l := by
  unfold GoLogger.write
  split
  · rfl
  · split <;> rfl

/-- Every emission `safeFormat` itself produces goes to stderr. -/
theorem safeFormat_snd_stderr (format : GoString) (args : List GoValue) (render : FmtResult) :
    ∀ e ∈ (safeFormat format args render).2, e.sink = Sink.stderr := by
  intro e he
  unfold safeFormat at he
  split at he
  · simp at he
  · cases render with
    | ok s => simp at he
    | panicked r => simp at he; rw [he]

/-- `Close` always leaves the handle field empty. -/
theorem Close_fst_logFile (l : GoLogger) (r : Option GoErr) :
    (l.Close r).1.logFile = none := by
  unfold GoLogger.Close
  split
  · rfl
  · next h => simpa using h

/-- `Close` does not touch the file-bound sink field. -/
theorem Close_fst_file (l : GoLogger) (r : Option GoErr) :
    (l.Close r).1.file = l.file := by
  unfold GoLogger.Close
  split <;> rfl

/-- `Close` does not touch the console sink field. -/
theorem Close_fst_std (l : GoLogger) (r : Option GoErr) :
    (l.Close r).1.std = l.std := by
  unfold GoLogger.Close
  split <;> rfl

/-- Whatever an optional sink emits carries the message it was given. -/
theorem sinkEmissions_text (o : Option Sink) (msg : GoString) :
    ∀ e ∈ sinkEmissions o msg, e.text = msg := by
  intro e he
  cases o with
  | none => simp [sinkEmissions] at he
  | some s => simp [sinkEmissions] at he; rw [he]

/-- The last element of a list extended by a singleton. -/
theorem getLast_append_singleton {α : Type} (xs : List α) (a : α) :
    (xs ++ [a]).getLast? = some a := by
  induction xs with
  | nil => rfl
  | cons x rest ih =>
      rw [List.cons_append, List.getLast?_cons, ih]
      cases rest <;> rfl

/-- `strings.Cut` on a line that contains no colon finds nothing and
returns the whole line as the part before the separator. -/
theorem goCutColon_not_mem : ∀ line : GoString, ':' ∉ line →
    goCutColon line = (line, [], false) := by
  intro line
  induction line with
  | nil => intro _; rfl
  | cons c rest ih =>
      intro h
      have hc : ¬ c = ':' := by
        intro hcc
        rw [← hcc] at h
        exact h (List.mem_cons_self c rest)
      have hr : ':' ∉ rest := fun hm => h (List.mem_cons_of_mem c hm)
      unfold goCutColon
      rw [if_neg hc, ih hr]

/- ### Claim theorems -/

/-- C2 counterpart (code bug): on an open logger whose underlying file
close succeeds (`none`), the first `Close` of src/logger.go still
returns a non-nil wrapped error, because the `fmt.Errorf` return is
unconditional; the second call is a no-op success; the sibling `Close`
of src/unnamed/part_000 returns no error on the same input. -/
theorem close_first_call_errors :
    ((createLoggerInstance 0).Close none).2 =
      some ⟨("close log file: %!w(<nil>)".toList)⟩ ∧
    ((createLoggerInstance 0).Close none).1 =
      { logFile := none, std := some Sink.stdout, file := some (Sink.fileSink 0) } ∧
    (((createLoggerInstance 0).Close none).1.Close none) =
      (((createLoggerInstance 0).Close none).1, none) ∧
    ((createLoggerInstance 0).ClosePart000 none).2 = none := by
  refine ⟨?_, ?_, ?_, ?_⟩ <;> rfl

/-- C4 counterpart (code bug): when the rendering step panics, the
`safeFormat` of src/logger.go returns the empty string (side report to
stderr aside), so an open logger logs the bare `"[INFO] "` line instead
of the fallback text embedding template and arguments; the sibling
`safeFormat` of src/unnamed/part_000 does produce that fallback. -/
theorem format_panic_logs_empty_string :
    (safeFormat ("%d!".toList) [GoValue.str ("x".toList)]
        (FmtResult.panicked ("boom".toList))).1 = [] ∧
    ((createLoggerInstance 0).write ("INFO".toList) ("%d!".toList)
        [GoValue.str ("x".toList)] (FmtResult.panicked ("boom".toList))).2 =
      [⟨Sink.stderr, loggerErrorText ("boom".toList) ("%d!".toList) [GoValue.str ("x".toList)]⟩,
        ⟨Sink.stdout, ("[INFO] ".toList)⟩,
        ⟨Sink.fileSink 0, ("[INFO] ".toList)⟩] ∧
    (safeFormatPart000 ("%d!".toList) [GoValue.str ("x".toList)]
        (FmtResult.panicked ("boom".toList))).1 =
      ("(format error: %d!) args=[x]".toList) := by
  refine ⟨?_, ?_, ?_⟩ <;> rfl

/-- C3 counterexample: the state reached by closing a fresh logger has no
file handle but still holds the file-bound sink, refuting the
both-present-or-both-absent invariant. -/
theorem close_breaks_handle_sink_invariant :
    ¬ handleSinkTogether ((createLoggerInstance 0).Close none).1 := by
  unfold handleSinkTogether
  decide

/-- C10: severity-method calls never mutate the instance: `write` (and
hence each of the seven facade methods) returns the logger with the
file-handle field and both sink fields untouched; only `Close` assigns
to a field. -/
theorem severity_methods_frame (l : GoLogger) (level format : GoString)
    (args : List GoValue) (render : FmtResult) :
    (l.write level format args render).1 = l ∧
    (l.write level format args render).1.logFile = l.logFile ∧
    (l.write level format args render).1.std = l.std ∧
    (l.write level format args render).1.file = l.file ∧
    (l.Info format args render).1 = l ∧
    (l.Warn format args render).1 = l ∧
    (l.Error format args render).1 = l ∧
    (l.Success format args render).1 = l ∧
    (l.Fatal format args render).1 = l ∧
    (l.Panic format args render).1 = l ∧
    (l.System format args render).1 = l := by
  refine ⟨write_fst l level format args render, ?_, ?_, ?_, ?_, ?_, ?_, ?_, ?_, ?_, ?_⟩ <;>
    simp only [GoLogger.Info, GoLogger.Warn, GoLogger.Error, GoLogger.Success,
      GoLogger.Fatal, GoLogger.Panic, GoLogger.System, write_fst]

/-- C3 amended: in every reachable state the console sink is present and
the file-bound sink is present (both keep their construction-time
values); `Close` clears only the file handle in its single assignment
and leaves both sink fields untouched, so after a close the handle is
absent while the file-bound sink is still present — the closed state is
signalled by the handle alone. -/
theorem sinks_persist_close_clears_handle (l : GoLogger) (h : Reachable l) :
    l.std = some Sink.stdout ∧ l.file.isSome = true ∧
    ∀ r : Option GoErr,
      (l.Close r).1.logFile = none ∧
      (l.Close r).1.file = l.file ∧
      (l.Close r).1.std = l.std := by
  have hcl : ∀ (m : GoLogger) (r : Option GoErr),
      (m.Close r).1.logFile = none ∧ (m.Close r).1.file = m.file ∧
        (m.Close r).1.std = m.std :=
    fun m r => ⟨Close_fst_logFile m r, Close_fst_file m r, Close_fst_std m r⟩
  induction h with
  | init f => exact ⟨rfl, rfl, hcl (createLoggerInstance f)⟩
  | close m r _ ih =>
      refine ⟨?_, ?_, hcl (m.Close r).1⟩
      · rw [Close_fst_std m r]; exact ih.1
      · rw [Close_fst_file m r]; exact ih.2.1
  | write m level format args render _ ih =>
      refine ⟨?_, ?_, hcl (m.write level format args render).1⟩
      · rw [write_fst m level format args render]; exact ih.1
      · rw [write_fst m level format args render]; exact ih.2.1

/-- Witness for `sinks_persist_close_clears_handle` at a concrete
reachable state. -/
theorem sinks_persist_close_clears_handle_witness :
    (createLoggerInstance 0).std = some Sink.stdout ∧
    (createLoggerInstance 0).file.isSome = true ∧
    ∀ r : Option GoErr,
      ((createLoggerInstance 0).Close r).1.logFile = none ∧
      ((createLoggerInstance 0).Close r).1.file = (createLoggerInstance 0).file ∧
      ((createLoggerInstance 0).Close r).1.std = (createLoggerInstance 0).std :=
  sinks_persist_close_clears_handle (createLoggerInstance 0) (Reachable.init 0)

/-- C6: a severity-method call on a closed instance leaves the instance
unchanged (in particular the file stays released), writes only to
stderr, and its final emission is the formatted message prefixed by the
bracketed level tag and the `(logger closed)` marker; `write` returns
nothing, so no error can reach the caller. -/
theorem closed_write_goes_to_stderr_only (l : GoLogger) (level format : GoString)
    (args : List GoValue) (render : FmtResult) (h : l.logFile = none) :
    (l.write level format args render).1 = l ∧
    (l.write level format args render).1.logFile = none ∧
    (∀ e ∈ (l.write level format args render).2, e.sink = Sink.stderr) ∧
    (l.write level format args render).2.getLast? =
      some ⟨Sink.stderr, '[' :: level ++ ("] (logger closed) ".toList) ++
        (safeFormat (validateFormat format) args render).1 ++ ("\n".toList)⟩ := by
  have hw : l.write level format args render =
      (l, (safeFormat (validateFormat format) args render).2 ++
        [⟨Sink.stderr, '[' :: level ++ ("] (logger closed) ".toList) ++
          (safeFormat (validateFormat format) args render).1 ++ ("\n".toList)⟩]) := by
    unfold GoLogger.write
    rw [if_pos h]
  refine ⟨?_, ?_, ?_, ?_⟩
  · rw [hw]
  · rw [hw]; exact h
  · intro e he
    rw [hw] at he
    rcases List.mem_append.1 he with hl2 | hr2
    · exact safeFormat_snd_stderr (validateFormat format) args render e hl2
    · rw [List.mem_singleton.1 hr2]
  · rw [hw]
    exact getLast_append_singleton _ _

/-- Witness for `closed_write_goes_to_stderr_only` on a freshly closed
logger. -/
theorem closed_write_goes_to_stderr_only_witness :
    ((createLoggerInstance 0).Close none).1.logFile = none ∧
    ((((createLoggerInstance 0).Close none).1.write ("INFO".toList) ("hi".toList) []
        (FmtResult.ok ("hi".toList))).1 = ((createLoggerInstance 0).Close none).1 ∧
      (((createLoggerInstance 0).Close none).1.write ("INFO".toList) ("hi".toList) []
        (FmtResult.ok ("hi".toList))).1.logFile = none ∧
      (∀ e ∈ (((createLoggerInstance 0).Close none).1.write ("INFO".toList) ("hi".toList) []
        (FmtResult.ok ("hi".toList))).2, e.sink = Sink.stderr) ∧
      (((createLoggerInstance 0).Close none).1.write ("INFO".toList) ("hi".toList) []
        (FmtResult.ok ("hi".toList))).2.getLast? =
        some ⟨Sink.stderr, '[' :: ("INFO".toList) ++ ("] (logger closed) ".toList) ++
          (safeFormat (validateFormat ("hi".toList)) [] (FmtResult.ok ("hi".toList))).1 ++
          ("\n".toList)⟩) :=
  ⟨rfl, closed_write_goes_to_stderr_only (((createLoggerInstance 0).Close none).1)
    ("INFO".toList) ("hi".toList) [] (FmtResult.ok ("hi".toList)) rfl⟩

/-- C5: a rendered message longer than 4096 characters is truncated: the
stored form ends with the `"[TRUNCATED]"` marker and has length at most
4096 (4076 kept characters plus the 15-character `"... [TRUNCATED]"`
suffix, 4091 in total), and `prepareMessage` stores and emits exactly
that truncated form behind the bracketed level tag. -/
theorem long_message_truncated (s : GoString) (h : maxLogMessageLength < s.length) :
    (truncateIfLong s).length ≤ maxLogMessageLength ∧
    ("[TRUNCATED]".toList) <:+ truncateIfLong s ∧
    ∀ (level format : GoString) (args : List GoValue) (render : FmtResult),
      (safeFormat format args render).1 = s →
      (prepareMessage level format args render).1 =
        formatLogMessage level (truncateIfLong s) := by
  refine ⟨?_, ?_, ?_⟩
  · unfold truncateIfLong
    rw [if_pos h, List.length_append, List.length_take]
    have hmin : min (maxLogMessageLength - 20) s.length = maxLogMessageLength - 20 := by
      refine Nat.min_eq_left (Nat.le_of_lt (Nat.lt_of_lt_of_le ?_ (Nat.le_of_lt h)))
      decide
    rw [hmin]
    decide
  · unfold truncateIfLong
    rw [if_pos h]
    have hsplit : ("... [TRUNCATED]".toList) = ("... ".toList) ++ ("[TRUNCATED]".toList) := rfl
    rw [hsplit, ← List.append_assoc]
    exact List.suffix_append _ _
  · intro level format args render hs
    unfold prepareMessage
    rw [hs]

/-- Witness for `long_message_truncated` at a 4097-character message. -/
theorem long_message_truncated_witness :
    maxLogMessageLength < (List.replicate 4097 'A').length ∧
    ((truncateIfLong (List.replicate 4097 'A')).length ≤ maxLogMessageLength ∧
      ("[TRUNCATED]".toList) <:+ truncateIfLong (List.replicate 4097 'A') ∧
      ∀ (level format : GoString) (args : List GoValue) (render : FmtResult),
        (safeFormat format args render).1 = List.replicate 4097 'A' →
        (prepareMessage level format args render).1 =
          formatLogMessage level (truncateIfLong (List.replicate 4097 'A'))) :=
  ⟨by rw [List.length_replicate]; decide,
    long_message_truncated (List.replicate 4097 'A') (by rw [List.length_replicate]; decide)⟩

/-- C7: `ValidatePath` fails exactly on the empty path (empty-path
category) or a path containing `".."` or `"~"` (invalid-path-characters
category), and `ValidateFilename` fails exactly on the empty filename
(empty-filename category) or a filename containing `"/"`, `"\"`, `".."`
or `"~"` (invalid-filename-characters category); every other input
passes. -/
theorem validate_path_filename_exact (p f : GoString) :
    (ValidatePath p = some LoggerErr.pathCannotBeEmpty ↔ p = []) ∧
    (ValidatePath p = some LoggerErr.pathContainsInvalidChars ↔
      (p ≠ [] ∧ (("..".toList) <:+: p ∨ ("~".toList) <:+: p))) ∧
    (ValidatePath p = none ↔
      (p ≠ [] ∧ ¬ ("..".toList) <:+: p ∧ ¬ ("~".toList) <:+: p)) ∧
    (ValidateFilename f = some LoggerErr.filenameCannotBeEmpty ↔ f = []) ∧
    (ValidateFilename f = some LoggerErr.filenameContainsInvalid ↔
      (f ≠ [] ∧ (("/".toList) <:+: f ∨ ("\\".toList) <:+: f ∨
        ("..".toList) <:+: f ∨ ("~".toList) <:+: f))) ∧
    (ValidateFilename f = none ↔
      (f ≠ [] ∧ ¬ ("/".toList) <:+: f ∧ ¬ ("\\".toList) <:+: f ∧
        ¬ ("..".toList) <:+: f ∧ ¬ ("~".toList) <:+: f)) := by
  refine ⟨?_, ?_, ?_, ?_, ?_, ?_⟩ <;>
    simp only [ValidatePath, ValidateFilename, containsInvalidPathChars,
      containsInvalidFilenameChars, goContains, Bool.or_eq_true, decide_eq_true_eq] <;>
    split_ifs <;>
    simp_all <;>
    tauto

/-- The prepared message always starts with the bracket of the level tag,
so it is never empty. -/
theorem prepareMessage_fst_ne_nil (level format : GoString) (args : List GoValue)
    (render : FmtResult) : (prepareMessage level format args render).1 ≠ [] := by
  unfold prepareMessage formatLogMessage
  exact List.cons_ne_nil _ _

/-- On an open logger, `write` emits the prepared message through the two
stored sinks, after any stderr report the rendering step produced. -/
theorem write_open_eq (l : GoLogger) (fh : Nat) (level format : GoString)
    (args : List GoValue) (render : FmtResult) (hopen : l.logFile = some fh) :
    (l.write level format args render).2 =
      (prepareMessage level (validateFormat format) args render).2 ++
        sinkEmissions l.std (prepareMessage level (validateFormat format) args render).1 ++
        sinkEmissions l.file (prepareMessage level (validateFormat format) args render).1 := by
  unfold GoLogger.write
  rw [if_neg (by rw [hopen]; simp),
    if_neg (prepareMessage_fst_ne_nil level (validateFormat format) args render)]

/-- C1 counterexample: on an open logger, a severity call with the empty
template and one string argument writes
`"[INFO] (empty message)%!(EXTRA string=x)"` — Go's `Sprintf` appends
its surplus-argument diagnostic to the placeholder, so the arguments are
not ignored and do leave a trace in the output. -/
theorem empty_template_args_leave_trace :
    ((createLoggerInstance 0).write ("INFO".toList) [] [GoValue.str ("x".toList)]
        (FmtResult.ok (goSprintfVerbFree ("(empty message)".toList)
          [GoValue.str ("x".toList)]))).2 =
      [⟨Sink.stdout, ("[INFO] (empty message)%!(EXTRA string=x)".toList)⟩,
        ⟨Sink.fileSink 0, ("[INFO] (empty message)%!(EXTRA string=x)".toList)⟩] ∧
    ("[INFO] (empty message)%!(EXTRA string=x)".toList) ≠
      ("[INFO] (empty message)".toList) := by
  refine ⟨rfl, by decide⟩

/-- C1 amended: an empty template is replaced by the `"(empty message)"`
placeholder.  With no arguments the written message is exactly the
placeholder behind the level tag; with arguments, Go's formatter appends
the non-empty `%!(EXTRA type=value, ...)` diagnostic listing them after
the placeholder, so the arguments are not ignored. -/
theorem empty_template_renders_placeholder
    (l : GoLogger) (fh : Nat) (level : GoString) (args : List GoValue) (render : FmtResult)
    (hopen : l.logFile = some fh) :
    (args = [] →
      ∀ e ∈ (l.write level [] args render).2,
        e.text = formatLogMessage level ("(empty message)".toList)) ∧
    (args ≠ [] →
      (goSprintfVerbFree ("(empty message)".toList) args).length ≤ maxLogMessageLength →
      (∀ e ∈ (l.write level [] args
          (FmtResult.ok (goSprintfVerbFree ("(empty message)".toList) args))).2,
        e.text = formatLogMessage level
          (("(empty message)".toList) ++ extraDiagnostic args)) ∧
      extraDiagnostic args ≠ []) := by
  constructor
  · intro ha e he
    subst ha
    rw [write_open_eq l fh level [] [] render hopen] at he
    have hpm : prepareMessage level (validateFormat []) [] render =
        (formatLogMessage level ("(empty message)".toList), []) := rfl
    rw [hpm] at he
    simp only [List.nil_append] at he
    rcases List.mem_append.1 he with h1 | h2
    · exact sinkEmissions_text l.std _ e h1
    · exact sinkEmissions_text l.file _ e h2
  · intro ha hlen
    have hs : goSprintfVerbFree ("(empty message)".toList) args =
        ("(empty message)".toList) ++ extraDiagnostic args := by
      unfold goSprintfVerbFree
      rw [if_neg ha]
    have hsf : safeFormat (validateFormat []) args
        (FmtResult.ok (goSprintfVerbFree ("(empty message)".toList) args)) =
        (goSprintfVerbFree ("(empty message)".toList) args, []) := by
      unfold safeFormat
      rw [if_neg ha]
    have htr : truncateIfLong (goSprintfVerbFree ("(empty message)".toList) args) =
        goSprintfVerbFree ("(empty message)".toList) args := by
      unfold truncateIfLong
      rw [if_neg (Nat.not_lt.mpr hlen)]
    have hpm : prepareMessage level (validateFormat []) args
        (FmtResult.ok (goSprintfVerbFree ("(empty message)".toList) args)) =
        (formatLogMessage level
          (("(empty message)".toList) ++ extraDiagnostic args), []) := by
      unfold prepareMessage
      rw [hsf, htr, hs]
    refine ⟨?_, ?_⟩
    · intro e he
      rw [write_open_eq l fh level [] args
        (FmtResult.ok (goSprintfVerbFree ("(empty message)".toList) args)) hopen] at he
      rw [hpm] at he
      simp only [List.nil_append] at he
      rcases List.mem_append.1 he with h1 | h2
      · exact sinkEmissions_text l.std _ e h1
      · exact sinkEmissions_text l.file _ e h2
    · simp [extraDiagnostic]

/-- Witness for `empty_template_renders_placeholder` on a fresh logger
with one string argument. -/
theorem empty_template_renders_placeholder_witness :
    (createLoggerInstance 0).logFile = some 0 ∧
    ([GoValue.str ("x".toList)] ≠ ([] : List GoValue)) ∧
    (goSprintfVerbFree ("(empty message)".toList)
      [GoValue.str ("x".toList)]).length ≤ maxLogMessageLength ∧
    ((∀ e ∈ ((createLoggerInstance 0).write ("INFO".toList) [] [GoValue.str ("x".toList)]
        (FmtResult.ok (goSprintfVerbFree ("(empty message)".toList)
          [GoValue.str ("x".toList)]))).2,
      e.text = formatLogMessage ("INFO".toList)
        (("(empty message)".toList) ++ extraDiagnostic [GoValue.str ("x".toList)])) ∧
      extraDiagnostic [GoValue.str ("x".toList)] ≠ []) :=
  ⟨rfl, by decide, by decide,
    (empty_template_renders_placeholder (createLoggerInstance 0) 0 ("INFO".toList)
      [GoValue.str ("x".toList)] (FmtResult.ok []) rfl).2 (by decide) (by decide)⟩

/-- C8 counterexample: the empty input line is skipped by
`processLogLine` before any parsing, so it is not dispatched at all — in
particular not to the informational method with the line as message. -/
theorem empty_line_not_dispatched :
    processLogLine [] = none ∧
    processLogLine [] ≠ some (Severity.info, []) := by
  refine ⟨rfl, by decide⟩

/-- C8 amended: every non-empty input line is split on its first colon and
dispatched; a non-empty line with no colon goes to the informational
method with the entire line as message, an unrecognized level token also
falls back to the informational method with the body as message, and
`"ERROR:disk full"` goes to the error-level method with message
`"disk full"`.  Empty lines are skipped without dispatch. -/
theorem daemon_line_dispatch (line : GoString) (h : line ≠ []) :
    processLogLine line =
      some (logMessageInDaemon (parseLogLine line).1 (parseLogLine line).2) ∧
    (':' ∉ line → processLogLine line = some (Severity.info, line)) ∧
    (getDaemonLevelHandlers (parseLogLine line).1 = none →
      processLogLine line = some (Severity.info, (parseLogLine line).2)) ∧
    processLogLine ("ERROR:disk full".toList) =
      some (Severity.error, ("disk full".toList)) := by
  have hbase : processLogLine line =
      some (logMessageInDaemon (parseLogLine line).1 (parseLogLine line).2) := by
    unfold processLogLine
    rw [if_neg h]
  refine ⟨hbase, ?_, ?_, by decide⟩
  · intro hc
    have hcut : goCutColon line = (line, [], false) := goCutColon_not_mem line hc
    have hparse : parseLogLine line = (("INFO".toList), line) := by
      unfold parseLogLine
      rw [hcut]
      rfl
    rw [hbase, hparse]
    rfl
  · intro hd
    rw [hbase]
    unfold logMessageInDaemon
    rw [hd]
    rfl

/-- Witness for `daemon_line_dispatch` on the line `"no colon here"`. -/
theorem daemon_line_dispatch_witness :
    (("no colon here".toList) ≠ ([] : GoString)) ∧
    (':' ∉ ("no colon here".toList)) ∧
    processLogLine ("no colon here".toList) =
      some (Severity.info, ("no colon here".toList)) ∧
    processLogLine ("ERROR:disk full".toList) =
      some (Severity.error, ("disk full".toList)) :=
  ⟨by decide, by decide,
    (daemon_line_dispatch ("no colon here".toList) (by decide)).2.1 (by decide),
    (daemon_line_dispatch ("no colon here".toList) (by decide)).2.2.2⟩

/-- C9 counterexample: in single-message mode the level lookup is a
case-sensitive Go map access over the lowercase names, so the uppercase
spelling `"INFO"` is rejected with the unknown-level error instead of
dispatching to the informational method. -/
theorem uppercase_level_rejected :
    logMessage ("INFO".toList) ("x".toList) =
      Except.error ⟨("unknown log level: 'INFO'".toList)⟩ := by
  rfl

/-- C9 amended: the CLI accepts exactly the seven lowercase level names;
each dispatches to the corresponding facade method with the message, and
any other spelling — including any other letter-casing — returns the
unknown-level error. -/
theorem lowercase_levels_exact (msg : GoString) :
    logMessage ("info".toList) msg = Except.ok (Severity.info, msg) ∧
    logMessage ("warn".toList) msg = Except.ok (Severity.warn, msg) ∧
    logMessage ("error".toList) msg = Except.ok (Severity.error, msg) ∧
    logMessage ("success".toList) msg = Except.ok (Severity.success, msg) ∧
    logMessage ("fatal".toList) msg = Except.ok (Severity.fatal, msg) ∧
    logMessage ("panic".toList) msg = Except.ok (Severity.panicLevel, msg) ∧
    logMessage ("system".toList) msg = Except.ok (Severity.system, msg) ∧
    ∀ level : GoString,
      level ∉ [("info".toList), ("warn".toList), ("error".toList), ("success".toList),
        ("fatal".toList), ("panic".toList), ("system".toList)] →
      logMessage level msg =
        Except.error ⟨("unknown log level: '".toList) ++ level ++ ("'".toList)⟩ := by
  refine ⟨rfl, rfl, rfl, rfl, rfl, rfl, rfl, ?_⟩
  intro level hmem
  simp only [List.mem_cons, List.not_mem_nil, or_false, not_or] at hmem
  obtain ⟨h1, h2, h3, h4, h5, h6, h7⟩ := hmem
  unfold logMessage getLevelHandlers
  rw [if_neg h1, if_neg h2, if_neg h3, if_neg h4, if_neg h5, if_neg h6, if_neg h7]

/-- Witness for `lowercase_levels_exact` at the uppercase spelling
`"INFO"`. -/
theorem lowercase_levels_exact_witness :
    (("INFO".toList) ∉ [("info".toList), ("warn".toList), ("error".toList),
      ("success".toList), ("fatal".toList), ("panic".toList), ("system".toList)]) ∧
    logMessage ("INFO".toList) ("x".toList) =
      Except.error ⟨("unknown log level: '".toList) ++ ("INFO".toList) ++ ("'".toList)⟩ :=
  ⟨by decide,
    (lowercase_levels_exact ("x".toList)).2.2.2.2.2.2.2 ("INFO".toList) (by decide)⟩
